import Mathlib

/-!
Verification of the patient-record access-control scripts
(`naive_agent.py` and `best_practice.py`).

The store is an in-process relational database with two tables,
`users(id, username, role)` and `patients(id, name, provider_name, condition)`,
seeded once with fixed rows when empty.  The access gate
`get_patient_record` resolves the caller to a role, checks membership in
`AUTHORIZED_ROLES`, then looks up the patient, short-circuiting with a
structured error on the first failure.  `best_practice.py` packages the
same logic in a `DatabaseAccessWrapper` that binds the caller identity at
construction time.
-/

/-- A row of the `users` table: `id` primary key, `username` unique, `role`. -/
structure UserRow where
  id : Int
  username : String
  role : String
deriving Repr, DecidableEq

/-- A row of the `patients` table:
`id` primary key, `name`, `provider_name`, `condition`. -/
structure PatientRow where
  id : Int
  name : String
  provider_name : String
  condition : String
deriving Repr, DecidableEq

/-- The SQLite database `patients.db`: the `users` and `patients` tables. -/
structure Store where
  users : List UserRow
  patients : List PatientRow
deriving Repr, DecidableEq

/-- The empty database, before any seeding. -/
def emptyStore : Store :=
  { users := [], patients := [] }

/-- SQLite rowid assignment for an `INTEGER PRIMARY KEY` column left
unspecified by the insert: one larger than the largest id in use
(1 on an empty table, ids here being positive). -/
def sqliteNextId (ids : List Int) : Int :=
  ids.foldl max 0 + 1

/-- Models `session.execute(users.insert(), rows)` with rows given as
`(username, role)` pairs and the `id` column left to SQLite. -/
def insertUserRows (tbl : List UserRow) (rows : List (String × String)) :
    List UserRow :=
  rows.foldl
    (fun acc row =>
      acc ++ [{ id := sqliteNextId (acc.map UserRow.id),
                username := row.1, role := row.2 }])
    tbl

/-- Models `session.execute(patients.insert(), rows)` with rows given as
`(name, provider_name, condition)` triples and the `id` column left to
SQLite. -/
def insertPatientRows (tbl : List PatientRow)
    (rows : List (String × String × String)) : List PatientRow :=
  rows.foldl
    (fun acc row =>
      acc ++ [{ id := sqliteNextId (acc.map PatientRow.id),
                name := row.1, provider_name := row.2.1,
                condition := row.2.2 }])
    tbl

/-- The fixed user seed rows of the pre-population block. -/
def seedUserRows : List (String × String) :=
  [("dr_smith", "doctor"),
   ("nurse_johnson", "nurse"),
   ("receptionist_amy", "receptionist")]

/-- The fixed patient seed rows of the pre-population block. -/
def seedPatientRows : List (String × String × String) :=
  [("John Doe", "Dr. Smith", "Flu"),
   ("Jane Roe", "Dr. Smith", "Diabetes"),
   ("Mary Major", "Dr. Brown", "Asthma")]

/-- The pre-population block (`# Pre-populate database (only if empty)`):
each table is filled with its seed rows only when its row count is 0. -/
def seed (st : Store) : Store :=
  let users1 :=
    if st.users.length = 0 then insertUserRows st.users seedUserRows
    else st.users
  let patients1 :=
    if st.patients.length = 0 then insertPatientRows st.patients seedPatientRows
    else st.patients
  { users := users1, patients := patients1 }

/-- The store as both scripts leave it at startup. -/
def seededStore : Store :=
  seed emptyStore

/-- The fixed authorized role set, `AUTHORIZED_ROLES`, holding the roles doctor and nurse. -/
def AUTHORIZED_ROLES : List String :=
  ["doctor", "nurse"]

/-- Models the query `select(users.c.role).where(users.c.username == u)` followed by
`fetchone()` and projection of the single `role` column. -/
def selectUserRole (st : Store) (username : String) : Option String :=
  (st.users.find? (fun u => u.username == username)).map UserRow.role

/-- Models the query `select(patients).where(patients.c.id == patient_id)` followed by
`fetchone()`. -/
def selectPatient (st : Store) (patient_id : Int) : Option PatientRow :=
  st.patients.find? (fun p => p.id == patient_id)

/-- The value returned by the access gate: either the patient dict
built from the four row fields, or an `error` dict. -/
inductive AccessResult where
  | record (id : Int) (name : String) (provider_name : String)
      (condition : String)
  | error (msg : String)
deriving Repr, DecidableEq

/-- The function `get_patient_record(logged_in_user, patient_id)` of `naive_agent.py`. -/
def get_patient_record (st : Store) (logged_in_user : String)
    (patient_id : Int) : AccessResult :=
  match selectUserRole st logged_in_user with
  | none => AccessResult.error "Access denied: user not found"
  | some user_role =>
    if user_role ∉ AUTHORIZED_ROLES then
      AccessResult.error "Access denied: insufficient privileges"
    else
      match selectPatient st patient_id with
      | none => AccessResult.error "Patient not found"
      | some p =>
        AccessResult.record p.id p.name p.provider_name p.condition

/-- The class `DatabaseAccessWrapper` of `best_practice.py`: the caller identity is
fixed at construction (`self.user_id = user_id`). -/
structure DatabaseAccessWrapper where
  user_id : String
deriving Repr, DecidableEq

/-- The method `DatabaseAccessWrapper.get_user_role`. -/
def DatabaseAccessWrapper.get_user_role (self : DatabaseAccessWrapper)
    (st : Store) : Option String :=
  match st.users.find? (fun u => u.username == self.user_id) with
  | none => none
  | some user_result => some user_result.role

/-- The method `DatabaseAccessWrapper.get_patient_record(patient_id)`: the only
per-call argument is `patient_id`; the identity used is the stored
`user_id`. -/
def DatabaseAccessWrapper.get_patient_record (self : DatabaseAccessWrapper)
    (st : Store) (patient_id : Int) : AccessResult :=
  match self.get_user_role st with
  | none => AccessResult.error "Access denied: user not found"
  | some user_role =>
    if user_role ∉ AUTHORIZED_ROLES then
      AccessResult.error "Access denied: insufficient privileges"
    else
      match selectPatient st patient_id with
      | none => AccessResult.error "Patient not found"
      | some p =>
        AccessResult.record p.id p.name p.provider_name p.condition

/-- The function `get_patient_record` of `naive_agent.py` with the database state
threaded explicitly: every statement in the function body is a `SELECT`
(`session.execute(select(...)).fetchone()`), modelled as an operation
returning its result together with the state it leaves behind. -/
def get_patient_record_run (st : Store) (logged_in_user : String)
    (patient_id : Int) : AccessResult × Store :=
  let step1 := (selectUserRole st logged_in_user, st)
  match step1.1 with
  | none => (AccessResult.error "Access denied: user not found", step1.2)
  | some user_role =>
    if user_role ∉ AUTHORIZED_ROLES then
      (AccessResult.error "Access denied: insufficient privileges", step1.2)
    else
      let step2 := (selectPatient step1.2 patient_id, step1.2)
      match step2.1 with
      | none => (AccessResult.error "Patient not found", step2.2)
      | some p =>
        (AccessResult.record p.id p.name p.provider_name p.condition,
         step2.2)

/-- The method `DatabaseAccessWrapper.get_patient_record` with the database state
threaded explicitly, as in `get_patient_record_run`. -/
def DatabaseAccessWrapper.get_patient_record_run
    (self : DatabaseAccessWrapper) (st : Store) (patient_id : Int) :
    AccessResult × Store :=
  let step1 := (self.get_user_role st, st)
  match step1.1 with
  | none => (AccessResult.error "Access denied: user not found", step1.2)
  | some user_role =>
    if user_role ∉ AUTHORIZED_ROLES then
      (AccessResult.error "Access denied: insufficient privileges", step1.2)
    else
      let step2 := (selectPatient step1.2 patient_id, step1.2)
      match step2.1 with
      | none => (AccessResult.error "Patient not found", step2.2)
      | some p =>
        (AccessResult.record p.id p.name p.provider_name p.condition,
         step2.2)

/-! ### Helper lemmas: the four outcomes of the access gate -/

lemma gpr_of_user_none (st : Store) (u : String) (p : Int)
    (hu : selectUserRole st u = none) :
    get_patient_record st u p =
      AccessResult.error "Access denied: user not found" := by
  unfold get_patient_record
  rw [hu]

lemma gpr_of_unauthorized (st : Store) (u : String) (p : Int) (r : String)
    (hu : selectUserRole st u = some r) (hr : r ∉ AUTHORIZED_ROLES) :
    get_patient_record st u p =
      AccessResult.error "Access denied: insufficient privileges" := by
  unfold get_patient_record
  rw [hu]
  simp [hr]

lemma gpr_of_patient_none (st : Store) (u : String) (p : Int) (r : String)
    (hu : selectUserRole st u = some r) (hr : r ∈ AUTHORIZED_ROLES)
    (hp : selectPatient st p = none) :
    get_patient_record st u p = AccessResult.error "Patient not found" := by
  unfold get_patient_record
  rw [hu]
  simp [hr, hp]

lemma gpr_of_patient_found (st : Store) (u : String) (p : Int) (r : String)
    (q : PatientRow) (hu : selectUserRole st u = some r)
    (hr : r ∈ AUTHORIZED_ROLES) (hp : selectPatient st p = some q) :
    get_patient_record st u p =
      AccessResult.record q.id q.name q.provider_name q.condition := by
  unfold get_patient_record
  rw [hu]
  simp [hr, hp]

example : get_patient_record seededStore "dr_smith" 3 =
    AccessResult.record 3 "Mary Major" "Dr. Brown" "Asthma" := by decide

example : get_patient_record seededStore "receptionist_amy" 3 =
    AccessResult.error "Access denied: insufficient privileges" := by decide

example : get_patient_record seededStore "nurse_johnson" 99 =
    AccessResult.error "Patient not found" := by decide

example : get_patient_record seededStore "unknown_user" 1 =
    AccessResult.error "Access denied: user not found" := by decide

lemma get_patient_record_run_eq (st : Store) (u : String) (p : Int) :
    get_patient_record_run st u p = (get_patient_record st u p, st) := by
  unfold get_patient_record_run get_patient_record
  cases selectUserRole st u with
  | none => rfl
  | some r =>
    by_cases hr : r ∉ AUTHORIZED_ROLES
    · simp only [if_pos hr]
    · simp only [if_neg hr]
      cases selectPatient st p with
      | none => rfl
      | some q => rfl

lemma wrapper_get_patient_record_run_eq (w : DatabaseAccessWrapper)
    (st : Store) (p : Int) :
    w.get_patient_record_run st p = (w.get_patient_record st p, st) := by
  unfold DatabaseAccessWrapper.get_patient_record_run
    DatabaseAccessWrapper.get_patient_record
  cases w.get_user_role st with
  | none => rfl
  | some r =>
    by_cases hr : r ∉ AUTHORIZED_ROLES
    · simp only [if_pos hr]
    · simp only [if_neg hr]
      cases selectPatient st p with
      | none => rfl
      | some q => rfl

/-- C1: for every caller identity and patient id, `get_patient_record`
evaluates its checks in the strict order user-lookup, role-membership,
patient-lookup, short-circuiting on the first failure: the result is the
user-not-found denial iff the username is absent; the
insufficient-privileges denial iff the user resolves to a role outside
`AUTHORIZED_ROLES`; the patient-not-found denial iff the user resolves to
an authorized role and no patient has that id; and the full patient
record when the user resolves to an authorized role and the patient
exists. -/
theorem get_patient_record_check_order (st : Store) (u : String) (p : Int) :
    (get_patient_record st u p =
        AccessResult.error "Access denied: user not found" ↔
      selectUserRole st u = none) ∧
    (get_patient_record st u p =
        AccessResult.error "Access denied: insufficient privileges" ↔
      ∃ r, selectUserRole st u = some r ∧ r ∉ AUTHORIZED_ROLES) ∧
    (get_patient_record st u p = AccessResult.error "Patient not found" ↔
      ∃ r, selectUserRole st u = some r ∧ r ∈ AUTHORIZED_ROLES ∧
        selectPatient st p = none) ∧
    (∀ r, selectUserRole st u = some r → r ∈ AUTHORIZED_ROLES →
      ∀ q, selectPatient st p = some q →
        get_patient_record st u p =
          AccessResult.record q.id q.name q.provider_name q.condition) := by
  rcases hu : selectUserRole st u with _ | r
  · rw [gpr_of_user_none st u p hu]
    refine ⟨iff_of_true rfl rfl, ?_, ?_, ?_⟩
    · exact iff_of_false (by decide) (fun ⟨r1, hr1, _⟩ => Option.noConfusion hr1)
    · exact iff_of_false (by decide)
        (fun ⟨r1, hr1, _, _⟩ => Option.noConfusion hr1)
    · intro r1 hr1
      exact Option.noConfusion hr1
  · by_cases hr : r ∈ AUTHORIZED_ROLES
    · rcases hp : selectPatient st p with _ | q
      · rw [gpr_of_patient_none st u p r hu hr hp]
        refine ⟨?_, ?_, iff_of_true rfl ⟨r, rfl, hr, rfl⟩, ?_⟩
        · exact iff_of_false (by decide) (fun h => Option.noConfusion h)
        · refine iff_of_false (by decide) ?_
          rintro ⟨r1, hr1, hr2⟩
          cases Option.some.inj hr1
          exact hr2 hr
        · intro r1 hr1 hm q hq
          exact Option.noConfusion hq
      · rw [gpr_of_patient_found st u p r q hu hr hp]
        refine ⟨?_, ?_, ?_, ?_⟩
        · exact iff_of_false (fun h => AccessResult.noConfusion h)
            (fun h => Option.noConfusion h)
        · refine iff_of_false (fun h => AccessResult.noConfusion h) ?_
          rintro ⟨r1, hr1, hr2⟩
          cases Option.some.inj hr1
          exact hr2 hr
        · refine iff_of_false (fun h => AccessResult.noConfusion h) ?_
          rintro ⟨r1, hr1, hm1, hp1⟩
          exact Option.noConfusion hp1
        · intro r1 hr1 hm q1 hq1
          cases Option.some.inj hq1
          rfl
    · rw [gpr_of_unauthorized st u p r hu hr]
      refine ⟨?_, iff_of_true rfl ⟨r, rfl, hr⟩, ?_, ?_⟩
      · exact iff_of_false (by decide) (fun h => Option.noConfusion h)
      · refine iff_of_false (by decide) ?_
        rintro ⟨r1, hr1, hr2, hp1⟩
        cases Option.some.inj hr1
        exact hr hr2
      · intro r1 hr1 hm
        cases Option.some.inj hr1
        exact absurd hm hr

/-- Witness for C1: the characterization instantiated at the seeded store
with caller `dr_smith` and patient id 3. -/
theorem get_patient_record_check_order_witness :
    (get_patient_record seededStore "dr_smith" 3 =
        AccessResult.error "Access denied: user not found" ↔
      selectUserRole seededStore "dr_smith" = none) ∧
    (get_patient_record seededStore "dr_smith" 3 =
        AccessResult.error "Access denied: insufficient privileges" ↔
      ∃ r, selectUserRole seededStore "dr_smith" = some r ∧
        r ∉ AUTHORIZED_ROLES) ∧
    (get_patient_record seededStore "dr_smith" 3 =
        AccessResult.error "Patient not found" ↔
      ∃ r, selectUserRole seededStore "dr_smith" = some r ∧
        r ∈ AUTHORIZED_ROLES ∧ selectPatient seededStore 3 = none) ∧
    (∀ r, selectUserRole seededStore "dr_smith" = some r →
      r ∈ AUTHORIZED_ROLES →
      ∀ q, selectPatient seededStore 3 = some q →
        get_patient_record seededStore "dr_smith" 3 =
          AccessResult.record q.id q.name q.provider_name q.condition) :=
  get_patient_record_check_order seededStore "dr_smith" 3

/-- C2: any known caller with an authorized role gets exactly the stored
patient record for a matching id and the patient-not-found denial
otherwise; in particular, on the seeded store, caller `dr_smith` with
patient id 3 gets the record of Mary Major and caller `nurse_johnson`
with patient id 99 gets the patient-not-found denial. -/
theorem authorized_reads_stored_record :
    (∀ (st : Store) (u r : String) (p : Int),
      selectUserRole st u = some r → r ∈ AUTHORIZED_ROLES →
        (∀ q, selectPatient st p = some q →
          get_patient_record st u p =
            AccessResult.record q.id q.name q.provider_name q.condition) ∧
        (selectPatient st p = none →
          get_patient_record st u p =
            AccessResult.error "Patient not found")) ∧
    get_patient_record seededStore "dr_smith" 3 =
      AccessResult.record 3 "Mary Major" "Dr. Brown" "Asthma" ∧
    get_patient_record seededStore "nurse_johnson" 99 =
      AccessResult.error "Patient not found" := by
  refine ⟨?_, by decide, by decide⟩
  intro st u r p hu hr
  exact ⟨fun q hq => gpr_of_patient_found st u p r q hu hr hq,
         fun hp => gpr_of_patient_none st u p r hu hr hp⟩

/-- Witness for C2: the general clause applied on the seeded store to
caller `nurse_johnson` and patient id 2. -/
theorem authorized_reads_stored_record_witness :
    get_patient_record seededStore "nurse_johnson" 2 =
      AccessResult.record 2 "Jane Roe" "Dr. Smith" "Diabetes" :=
  (authorized_reads_stored_record.1 seededStore "nurse_johnson" "nurse" 2
      (by decide) (by decide)).1
    { id := 2, name := "Jane Roe", provider_name := "Dr. Smith",
      condition := "Diabetes" } (by decide)

/-- C3: a username absent from the user table is denied with the
user-not-found error for every patient id, and the result does not
depend on the patient id at all, so it never reveals whether the
requested patient exists. -/
theorem unknown_user_denied (st : Store) (u : String)
    (hu : selectUserRole st u = none) (p1 p2 : Int) :
    get_patient_record st u p1 =
      AccessResult.error "Access denied: user not found" ∧
    get_patient_record st u p1 = get_patient_record st u p2 := by
  refine ⟨gpr_of_user_none st u p1 hu, ?_⟩
  rw [gpr_of_user_none st u p1 hu, gpr_of_user_none st u p2 hu]

/-- Witness for C3: on the seeded store, `unknown_user` is denied with
the user-not-found error both at the existing patient id 1 and at the
absent id 99. -/
theorem unknown_user_denied_witness :
    get_patient_record seededStore "unknown_user" 1 =
      AccessResult.error "Access denied: user not found" ∧
    get_patient_record seededStore "unknown_user" 1 =
      get_patient_record seededStore "unknown_user" 99 :=
  unknown_user_denied seededStore "unknown_user" (by decide) 1 99

/-- C4: a known caller whose role is outside `AUTHORIZED_ROLES` is
denied with the insufficient-privileges error for every patient id, and
any two patient ids give identical results, so an unauthorized caller
learns nothing about whether a given patient id exists. -/
theorem insufficient_privileges_uniform (st : Store) (u r : String)
    (hu : selectUserRole st u = some r) (hr : r ∉ AUTHORIZED_ROLES)
    (p1 p2 : Int) :
    get_patient_record st u p1 =
      AccessResult.error "Access denied: insufficient privileges" ∧
    get_patient_record st u p1 = get_patient_record st u p2 := by
  refine ⟨gpr_of_unauthorized st u p1 r hu hr, ?_⟩
  rw [gpr_of_unauthorized st u p1 r hu hr,
    gpr_of_unauthorized st u p2 r hu hr]

/-- Witness for C4: on the seeded store, `receptionist_amy` is denied
with the insufficient-privileges error at the existing patient id 3 and
gets the same result at the absent id 99. -/
theorem insufficient_privileges_uniform_witness :
    get_patient_record seededStore "receptionist_amy" 3 =
      AccessResult.error "Access denied: insufficient privileges" ∧
    get_patient_record seededStore "receptionist_amy" 3 =
      get_patient_record seededStore "receptionist_amy" 99 :=
  insufficient_privileges_uniform seededStore "receptionist_amy"
    "receptionist" (by decide) (by decide) 3 99

/-- C5: for every store, caller and patient id, the result of
`get_patient_record` is returned as a value and is either the full
record of a stored patient or an error whose string is exactly one of
the three fixed denial strings; no other outcome is possible. -/
theorem result_taxonomy (st : Store) (u : String) (p : Int) :
    (∃ q, selectPatient st p = some q ∧
      get_patient_record st u p =
        AccessResult.record q.id q.name q.provider_name q.condition) ∨
    get_patient_record st u p =
      AccessResult.error "Access denied: user not found" ∨
    get_patient_record st u p =
      AccessResult.error "Access denied: insufficient privileges" ∨
    get_patient_record st u p = AccessResult.error "Patient not found" := by
  rcases hu : selectUserRole st u with _ | r
  · exact Or.inr (Or.inl (gpr_of_user_none st u p hu))
  · by_cases hr : r ∈ AUTHORIZED_ROLES
    · rcases hp : selectPatient st p with _ | q
      · exact Or.inr (Or.inr (Or.inr (gpr_of_patient_none st u p r hu hr hp)))
      · exact Or.inl ⟨q, rfl, gpr_of_patient_found st u p r q hu hr hp⟩
    · exact Or.inr (Or.inr (Or.inl (gpr_of_unauthorized st u p r hu hr)))

/-- C6: seeding is idempotent: seeding the empty store and seeding the
result again give the same store, which holds exactly 3 user rows and
exactly 3 patient rows; the second run inserts nothing because non-empty
tables are skipped. -/
theorem seeding_idempotent :
    seed (seed emptyStore) = seed emptyStore ∧
    (seed (seed emptyStore)).users.length = 3 ∧
    (seed (seed emptyStore)).patients.length = 3 := by decide

/-- C7: after seeding the empty store, the stored rows are exactly the
fixed seed data: users `dr_smith`/doctor, `nurse_johnson`/nurse,
`receptionist_amy`/receptionist, and patients with the SQLite-assigned
ids 1, 2, 3 bound respectively to John Doe with Dr. Smith and Flu, Jane
Roe with Dr. Smith and Diabetes, and Mary Major with Dr. Brown and
Asthma. -/
theorem seed_data_exact :
    (seed emptyStore).users.map (fun u => (u.username, u.role)) =
      [("dr_smith", "doctor"), ("nurse_johnson", "nurse"),
       ("receptionist_amy", "receptionist")] ∧
    (seed emptyStore).patients =
      [{ id := 1, name := "John Doe", provider_name := "Dr. Smith",
         condition := "Flu" },
       { id := 2, name := "Jane Roe", provider_name := "Dr. Smith",
         condition := "Diabetes" },
       { id := 3, name := "Mary Major", provider_name := "Dr. Brown",
         condition := "Asthma" }] := by decide

/-- C8: the two variants are equivalent: for every store, wrapper and
patient id, `DatabaseAccessWrapper.get_patient_record` returns exactly
what the per-call `get_patient_record` returns for the identity fixed in
the wrapper at construction; since the method takes only `patient_id`,
the bound identity is the one used for authorization on every call. -/
theorem wrapper_equiv_per_call (w : DatabaseAccessWrapper) (st : Store)
    (patient_id : Int) :
    w.get_patient_record st patient_id =
      get_patient_record st w.user_id patient_id := by
  unfold DatabaseAccessWrapper.get_patient_record get_patient_record
    DatabaseAccessWrapper.get_user_role selectUserRole
  cases st.users.find? (fun u => u.username == w.user_id) with
  | none => rfl
  | some row => rfl

/-- C9: the access gate has no side effect on the store: with the
database state threaded explicitly, both variants leave the users and
patients tables exactly as they were, on the success path and on every
denial path, while computing the same result as the pure reading. -/
theorem get_patient_record_no_side_effect (st : Store) (u : String)
    (p : Int) (w : DatabaseAccessWrapper) :
    (get_patient_record_run st u p).2 = st ∧
    (get_patient_record_run st u p).1 = get_patient_record st u p ∧
    (w.get_patient_record_run st p).2 = st ∧
    (w.get_patient_record_run st p).1 = w.get_patient_record st p := by
  rw [get_patient_record_run_eq st u p,
    wrapper_get_patient_record_run_eq w st p]
  exact ⟨rfl, rfl, rfl, rfl⟩

/-- C10: authorization depends only on the role of the caller, never on
any patient field: any caller resolving to an authorized role reads any
stored patient record whatever its `provider_name`; in particular, on
the seeded store, both `nurse_johnson` and `dr_smith` read patient 3,
whose provider is Dr. Brown, a different provider than either caller. -/
theorem authorization_role_only :
    (∀ (st : Store) (u r : String) (p : Int) (q : PatientRow),
      selectUserRole st u = some r → r ∈ AUTHORIZED_ROLES →
      selectPatient st p = some q →
      get_patient_record st u p =
        AccessResult.record q.id q.name q.provider_name q.condition) ∧
    get_patient_record seededStore "nurse_johnson" 3 =
      AccessResult.record 3 "Mary Major" "Dr. Brown" "Asthma" ∧
    get_patient_record seededStore "dr_smith" 3 =
      AccessResult.record 3 "Mary Major" "Dr. Brown" "Asthma" := by
  refine ⟨?_, by decide, by decide⟩
  intro st u r p q hu hr hp
  exact gpr_of_patient_found st u p r q hu hr hp

/-- Witness for C10: the general clause applied on the seeded store to
`dr_smith` and patient 1. -/
theorem authorization_role_only_witness :
    get_patient_record seededStore "dr_smith" 1 =
      AccessResult.record 1 "John Doe" "Dr. Smith" "Flu" :=
  authorization_role_only.1 seededStore "dr_smith" "doctor" 1
    { id := 1, name := "John Doe", provider_name := "Dr. Smith",
      condition := "Flu" } (by decide) (by decide) (by decide)
